import Mathlib

/-!
Shallow embedding of the text-to-sql MCP server core:
the query-safety gate of the free-form Cypher query tool
(src/tools/neo4j_query_tool.py) and the JSON-RPC protocol engine
(src/mcp_server.py), with theorems settling the specification claims.
-/

namespace TextToSql

/-! ## Query normalisation (neo4j_query_tool.py, _validate_query lines 100-102)

Python: `re.sub(r_slash_comments, chr(32), query, flags=re.DOTALL)` removes
line comments (two slashes up to and including the next newline) and block
comments (slash-star up to and including the first star-slash), scanning left
to right, first alternative preferred; an unterminated comment opener is left
in place.  Then the text is split on whitespace runs, re-joined with single
spaces, and uppercased. -/

/-- Characters Python str.split() treats as whitespace (ASCII range). -/
def pyIsSpace (c : Char) : Bool :=
  c = ' ' || c = '\t' || c = '\n' || c = '\r' || c = '\x0b' || c = '\x0c'

/-- Skip to just past the first newline; none when no newline follows
(the regex alternative for a line comment then fails to match). -/
def dropPastNewline : List Char → Option (List Char)
  | [] => none
  | c :: rest => if c = '\n' then some rest else dropPastNewline rest

/-- Skip to just past the first star-slash pair; none when the block
comment is unterminated. -/
def dropPastBlockClose : List Char → Option (List Char)
  | [] => none
  | [_] => none
  | c :: c2 :: rest =>
    if c = '*' ∧ c2 = '/' then some rest else dropPastBlockClose (c2 :: rest)

/-- Comment stripping workhorse.  Every step consumes at least one input
character, so fuel equal to the input length always suffices and the
fuel-exhausted arm is unreachable; fuel only makes the recursion
structural. -/
def stripCommentsGo : Nat → List Char → List Char
  | _, [] => []
  | 0, l => l
  | fuel + 1, '/' :: '/' :: rest =>
    match dropPastNewline rest with
    | some rest2 => stripCommentsGo fuel rest2
    | none => '/' :: stripCommentsGo fuel ('/' :: rest)
  | fuel + 1, '/' :: '*' :: rest =>
    match dropPastBlockClose rest with
    | some rest2 => stripCommentsGo fuel rest2
    | none => '/' :: stripCommentsGo fuel ('*' :: rest)
  | fuel + 1, c :: rest => c :: stripCommentsGo fuel rest

/-- Comment stripping, mirroring the regex substitution at line 101. -/
def stripComments (l : List Char) : List Char :=
  stripCommentsGo l.length l

/-- Accumulating word splitter: Python str.split() with no argument. -/
def wordsAux (acc : List Char) : List Char → List (List Char)
  | [] => if acc.isEmpty then [] else [acc.reverse]
  | c :: rest =>
    if pyIsSpace c then
      if acc.isEmpty then wordsAux [] rest else acc.reverse :: wordsAux [] rest
    else wordsAux (c :: acc) rest

def pySplit (l : List Char) : List (List Char) := wordsAux [] l

/-- chr(32).join(words): single spaces between words. -/
def joinSpace : List (List Char) → List Char
  | [] => []
  | [w] => w
  | w :: ws => w ++ ' ' :: joinSpace ws

/-- Normalised query text (line 101-102): comments stripped, whitespace
collapsed, uppercased. -/
def normalizeQuery (q : String) : List Char :=
  (joinSpace (pySplit (stripComments q.data))).map Char.toUpper

/-! ## Substring and start checks -/

/-- Leading-segment test: startsWithL n h mirrors Python str.startswith. -/
def startsWithL : List Char → List Char → Bool
  | [], _ => true
  | _ :: _, [] => false
  | a :: as, b :: bs => a = b && startsWithL as bs

/-- Substring test: containsSub n h holds when n occurs contiguously inside h (the Python membership operator on strings). -/
def containsSub (n : List Char) : List Char → Bool
  | [] => startsWithL n []
  | c :: t => startsWithL n (c :: t) || containsSub n t

/-! ## The safety gate (neo4j_query_tool.py lines 98-118) -/

def dangerous_keywords : List String :=
  ["CREATE", "DELETE", "DETACH DELETE", "REMOVE", "SET", "MERGE",
   "DROP", "ALTER", "CALL", "LOAD CSV", "IMPORT", "EXPORT",
   "ADMIN", "DBMS", "TERMINATE", "KILL"]

def allowed_starts : List String :=
  ["MATCH", "RETURN", "SHOW", "EXPLAIN", "PROFILE", "WITH", "UNWIND", "OPTIONAL MATCH"]

def dangerMsg (k : String) : String :=
  "Query contains dangerous keyword: " ++ k ++ ". Only read-only queries are allowed."

def startErrMsg : String :=
  "Query must start with a read-only operation (MATCH, RETURN, SHOW, etc.)"

/-- Embedding of _validate_query: raise on the first deny-listed keyword found in the
normalised text (list order), then require an allowed leading clause. -/
def validate_query (q : String) : Except String Unit :=
  let clean := normalizeQuery q
  match dangerous_keywords.find? (fun k => containsSub k.data clean) with
  | some k => .error (dangerMsg k)
  | none =>
    if allowed_starts.any (fun s => startsWithL s.data clean) then .ok ()
    else .error startErrMsg

/-! ## JSON-ish values

Python runtime values flowing through the server: None, bools, ints,
strings, lists and dicts (dicts as association lists). -/

inductive J where
  | null
  | bool (b : Bool)
  | int (n : Int)
  | str (s : String)
  | arr (xs : List J)
  | obj (kvs : List (String × J))

/-- Python truthiness of a value. -/
def jTruthy : J → Bool
  | .null => false
  | .bool b => b
  | .int n => n != 0
  | .str s => !s.isEmpty
  | .arr xs => !xs.isEmpty
  | .obj kvs => !kvs.isEmpty

/-- Dictionary lookup (first binding wins; the dicts built by this code
never repeat a key). -/
def lookupKV (kvs : List (String × J)) (k : String) : Option J :=
  (kvs.find? (fun p => p.1 == k)).map (fun p => p.2)

def hasKey (kvs : List (String × J)) (k : String) : Bool :=
  (lookupKV kvs k).isSome

def objGet (v : J) (k : String) : Option J :=
  match v with
  | .obj kvs => lookupKV kvs k
  | _ => none

mutual
/-- Serialisation of a result value, standing in for json.dumps (the
indentation of the Python call is abstracted; no claim inspects it). -/
def jsonDumps : J → String
  | .null => "null"
  | .bool b => if b then "true" else "false"
  | .int n => toString n
  | .str s => "\"" ++ s ++ "\""
  | .arr xs => "[" ++ jsonDumpsList xs ++ "]"
  | .obj kvs => "\x7b" ++ jsonDumpsKVs kvs ++ "\x7d"

def jsonDumpsList : List J → String
  | [] => ""
  | [x] => jsonDumps x
  | x :: xs => jsonDumps x ++ ", " ++ jsonDumpsList xs

def jsonDumpsKVs : List (String × J) → String
  | [] => ""
  | [(k, v)] => "\"" ++ k ++ "\": " ++ jsonDumps v
  | (k, v) :: kvs => "\"" ++ k ++ "\": " ++ jsonDumps v ++ ", " ++ jsonDumpsKVs kvs
end

/-- Python str() of a value, used by f-string interpolation. -/
def pyStr : J → String
  | .null => "None"
  | .bool b => if b then "True" else "False"
  | .int n => toString n
  | .str s => s
  | .arr xs => jsonDumps (.arr xs)
  | .obj kvs => jsonDumps (.obj kvs)

/-! ## JSON-RPC response (mcp_server.py lines 36-55) -/

structure JSONRPCResponse where
  jsonrpc : String := "2.0"
  result : J := .null
  error : Option (List (String × J)) := none
  id : Option J := none

/-- Embedding of to_dict (lines 44-55): emit error when the error dict is truthy,
result otherwise; emit id only when it is not None. -/
def JSONRPCResponse.to_dict (r : JSONRPCResponse) : List (String × J) :=
  let base := [("jsonrpc", J.str r.jsonrpc)]
  let withBody :=
    match r.error with
    | some kvs => if kvs.isEmpty then base ++ [("result", r.result)] else base ++ [("error", J.obj kvs)]
    | none => base ++ [("result", r.result)]
  match r.id with
  | some i => withBody ++ [("id", i)]
  | none => withBody

/-! ## JSON-RPC request (mcp_server.py lines 15-33) -/

/-- An inbound request mapping; none marks an absent key (an explicit
JSON null id behaves like an absent one, both being Python None). -/
structure ReqDict where
  jsonrpc : Option String := none
  method : Option String := none
  params : Option J := none
  id : Option J := none

structure JSONRPCRequest where
  jsonrpc : String
  method : String
  params : Option J
  id : Option J

/-- Embedding of from_dict (lines 23-30): a KeyError on the mandatory method field is the
only failure; the error value carries the missing field name. -/
def JSONRPCRequest.from_dict (d : ReqDict) : Except String JSONRPCRequest :=
  match d.method with
  | none => .error "method"
  | some m => .ok { jsonrpc := d.jsonrpc.getD "2.0", method := m, params := d.params, id := d.id }

def JSONRPCRequest.is_notification (r : JSONRPCRequest) : Bool :=
  r.id.isNone

/-! ## Tools (mcp_server.py lines 58-96) -/

structure ParamSpec where
  name : String
  type : String
  description : String
  enum : Option (List String) := none
  required : Option Bool := none

structure MCPTool where
  name : String
  description : String
  parameters : List ParamSpec
  exec : J → Except String J

/-- One entry of the properties map built by get_schema. -/
def paramProperty (p : ParamSpec) : J :=
  let base := [("type", J.str p.type), ("description", J.str p.description)]
  match p.enum with
  | some es => if es.isEmpty then J.obj base else J.obj (base ++ [("enum", J.arr (es.map J.str))])
  | none => J.obj base

/-- Names collected into the required list by the loop of get_schema. -/
def requiredNames (ps : List ParamSpec) : List String :=
  (ps.filter (fun p => p.required.getD false)).map (fun p => p.name)

/-- Embedding of get_schema (lines 66-92). -/
def MCPTool.get_schema (t : MCPTool) : J :=
  J.obj [("name", J.str t.name), ("description", J.str t.description),
    ("inputSchema", J.obj [("type", J.str "object"),
      ("properties", J.obj (t.parameters.map (fun p => (p.name, paramProperty p)))),
      ("required", J.arr ((requiredNames t.parameters).map J.str))])]

/-- The required list of a schema, read back out of the nested value. -/
def schemaRequired (t : MCPTool) : List J :=
  match (objGet ((objGet t.get_schema "inputSchema").getD .null) "required").getD .null with
  | .arr xs => xs
  | _ => []

/-! ## The server (mcp_server.py lines 99-241) -/

structure MCPServer where
  tools : List (String × MCPTool) := []

/-- Python dict assignment: overwrite in place or append. -/
def updateAssoc (kvs : List (String × MCPTool)) (k : String) (v : MCPTool) :
    List (String × MCPTool) :=
  match kvs with
  | [] => [(k, v)]
  | (k2, v2) :: rest => if k2 == k then (k, v) :: rest else (k2, v2) :: updateAssoc rest k v

def lookupTool (kvs : List (String × MCPTool)) (k : String) : Option MCPTool :=
  (kvs.find? (fun p => p.1 == k)).map (fun p => p.2)

def MCPServer.register_tool (s : MCPServer) (t : MCPTool) : MCPServer :=
  { tools := updateAssoc s.tools t.name t }

def MCPServer.list_tools (s : MCPServer) : List J :=
  s.tools.map (fun p => p.2.get_schema)

def server_info_static : List (String × J) :=
  [("name", J.str "Neo4j Schema MCP Server"), ("version", J.str "1.0.0"),
   ("description", J.str "Neo4j database schema exposure for Cypher/text-to-SQL generation")]

def MCPServer.get_server_info (s : MCPServer) : J :=
  J.obj (server_info_static ++
    [("tools_count", J.int s.tools.length),
     ("capabilities", J.obj [("tools", J.bool true), ("resources", J.bool false), ("prompts", J.bool false)])])

/-- Embedding of _handle_initialize (lines 196-204); a non-mapping params value makes the
attribute access raise, modelled as the error branch. -/
def handle_initialize (params : J) : Except String J :=
  match params with
  | .obj kvs =>
    .ok (J.obj [("protocolVersion", (lookupKV kvs "protocolVersion").getD (J.str "2024-11-05")),
      ("capabilities", J.obj [("tools", J.obj [])]),
      ("serverInfo", J.obj server_info_static)])
  | _ => .error "params object has no attribute get"

/-- Embedding of _handle_call_tool (lines 210-237); non-mapping params make the membership
test or the subscript raise, modelled as the last error branches. -/
def MCPServer.handle_call_tool (srv : MCPServer) (params : J) : Except String J :=
  match params with
  | .obj kvs =>
    match lookupKV kvs "name" with
    | none => .error "Missing required parameter: name"
    | some nameJ =>
      let toolParams := (lookupKV kvs "arguments").getD (J.obj [])
      match nameJ with
      | .str tname =>
        match lookupTool srv.tools tname with
        | none => .error ("Tool not found: " ++ tname)
        | some tool =>
          match tool.exec toolParams with
          | .ok res =>
            .ok (J.obj [("content", J.arr [J.obj [("type", J.str "text"), ("text", J.str (jsonDumps res))]])])
          | .error e => .error ("Tool execution failed: " ++ e)
      | other => .error ("Tool not found: " ++ pyStr other)
  | _ => .error "params object is not a mapping"

def method_names : List String :=
  ["initialize", "tools/list", "tools/call", "server/info"]

def MCPServer.runHandler (srv : MCPServer) (m : String) (params : J) : Except String J :=
  if m = "initialize" then handle_initialize params
  else if m = "tools/list" then .ok (J.obj [("tools", J.arr srv.list_tools)])
  else if m = "tools/call" then srv.handle_call_tool params
  else .ok srv.get_server_info

/-- Value of request.params or an empty mapping (line 179). -/
def paramsOrEmpty : Option J → J
  | some v => if jTruthy v then v else J.obj []
  | none => J.obj []

/-- Embedding of _dispatch_method (lines 162-187). -/
def MCPServer.dispatch_method (srv : MCPServer) (req : JSONRPCRequest) : JSONRPCResponse :=
  if req.method ∈ method_names then
    match srv.runHandler req.method (paramsOrEmpty req.params) with
    | .ok res => { result := res, id := req.id }
    | .error e =>
      { error := some [("code", J.int (-32603)), ("message", J.str ("Error executing " ++ req.method)),
          ("data", J.str e)], id := req.id }
  else
    { error := some [("code", J.int (-32601)), ("message", J.str ("Method not found: " ++ req.method))],
      id := req.id }

/-- Embedding of _create_error_response (lines 189-194): id is left at None. -/
def create_error_response (code : Int) (message : String) (data : Option String) :
    List (String × J) :=
  let err := [("code", J.int code), ("message", J.str message)]
  let err :=
    match data with
    | some d => if d.isEmpty then err else err ++ [("data", J.str d)]
    | none => err
  JSONRPCResponse.to_dict { error := some err }

/-- Inbound data for handle_request: raw text is either unparseable (with the
decoder message) or yields a request mapping; a mapping may also be passed
directly. -/
inductive Inbound where
  | text (r : Except String ReqDict)
  | dict (d : ReqDict)

/-- Embedding of handle_request (lines 131-160). -/
def MCPServer.handle_request (srv : MCPServer) (inp : Inbound) : Option (List (String × J)) :=
  let parsed : Except (List (String × J)) ReqDict :=
    match inp with
    | .text (.error e) => .error (create_error_response (-32700) "Parse error" (some e))
    | .text (.ok d) => .ok d
    | .dict d => .ok d
  match parsed with
  | .error resp => some resp
  | .ok d =>
    match JSONRPCRequest.from_dict d with
    | .error fld => some (create_error_response (-32600) "Invalid Request" (some ("Missing field: " ++ fld)))
    | .ok req =>
      let resp := srv.dispatch_method req
      if req.is_notification then none
      else some resp.to_dict

/-! ## The free-form query tool (neo4j_query_tool.py lines 80-169) -/

/-- Python str.strip() with no argument. -/
def pyStrip (s : String) : String :=
  String.mk (((s.data.dropWhile pyIsSpace).reverse.dropWhile pyIsSpace).reverse)

/-- Python query.rstrip applied to the semicolon character. -/
def rstripSemi (s : String) : String :=
  String.mk ((s.data.reverse.dropWhile (fun c => c = ';')).reverse)

/-- isinstance(v, int): Python bools are ints. -/
def isPyInt : J → Bool
  | .int _ => true
  | .bool _ => true
  | _ => false

/-- The integer value used in comparisons once isPyInt holds. -/
def pyIntVal : J → Int
  | .int n => n
  | .bool b => if b then 1 else 0
  | _ => 0

/-- The external graph driver: run(query) yields rows or raises. -/
structure QueryDriver where
  run : String → Except String (List J)

structure Neo4jQueryToolState where
  driver : Option QueryDriver := none

/-- The query text actually sent to the driver (lines 85-87): append a cap
clause when the limit is truthy and no LIMIT substring occurs in the
uppercased text, stripping trailing semicolons first. -/
def appliedQuery (query : String) (lim : J) : String :=
  if jTruthy lim && !(containsSub "LIMIT".data (query.data.map Char.toUpper)) then
    rstripSemi query ++ " LIMIT " ++ pyStr lim
  else query

/-- Embedding of _execute_query (lines 80-96). -/
def Neo4jQueryToolState.execute_query (t : Neo4jQueryToolState) (query : String) (lim : J) :
    Except String (List J) :=
  match t.driver with
  | none => .error "Not connected to Neo4j database. Check if Neo4j is running and credentials are correct."
  | some drv =>
    match drv.run (appliedQuery query lim) with
    | .ok rows => .ok rows
    | .error e => .error ("Query execution failed: " ++ e)

def guidanceJ : J :=
  J.obj [("use_case", J.str "Explore PostgreSQL schema to generate SQL queries"),
    ("entity_types", J.str "Table, Column, Constraint, Index"),
    ("relationships", J.str "HAS_COLUMN, REFERENCES (FK), HAS_CONSTRAINT, HAS_INDEX, INDEXES"),
    ("sql_generation_tip", J.str "Use table_name and column info to build SELECT, JOIN, WHERE clauses")]

/-- The response mapping built at lines 140-153. -/
def queryResponseBase (cypher_query : String) (rows : List J) : List (String × J) :=
  [("database_type", J.str "PostgreSQL"), ("storage_type", J.str "Neo4j"),
   ("purpose", J.str "PostgreSQL schema exploration for SQL generation"),
   ("query", J.str cypher_query), ("result_count", J.int rows.length),
   ("results", J.arr rows), ("guidance", guidanceJ)]

/-- The limit guard of execute (line 130): taken when the value is truthy and
is not an int between 1 and 1000. -/
def badLimit (lim : J) : Bool :=
  jTruthy lim && (!(isPyInt lim) || decide (pyIntVal lim ≤ 0) || decide (pyIntVal lim > 1000))

/-- Embedding of execute (lines 120-169).  Failures inside the try block are re-raised
with the generic execution-failure prefix; the empty-query and limit checks
precede it.  A non-string cypher_query value makes strip() raise, modelled
as the last error branches. -/
def Neo4jQueryToolState.execute (t : Neo4jQueryToolState) (params : J) : Except String J :=
  match params with
  | .obj kvs =>
    match (lookupKV kvs "cypher_query").getD (J.str "") with
    | .str raw =>
      let cypher_query := pyStrip raw
      let lim := (lookupKV kvs "limit").getD (J.int 100)
      let includePlan := (lookupKV kvs "include_query_plan").getD (J.bool false)
      if cypher_query.isEmpty then .error "cypher_query parameter is required"
      else if badLimit lim then .error "limit must be a positive integer between 1 and 1000"
      else
        match validate_query cypher_query with
        | .error m => .error ("Query execution failed: " ++ m)
        | .ok _ =>
          match t.execute_query cypher_query lim with
          | .error m => .error ("Query execution failed: " ++ m)
          | .ok rows =>
            let base := queryResponseBase cypher_query rows
            if jTruthy includePlan then
              match t.execute_query ("EXPLAIN " ++ cypher_query) .null with
              | .ok plan => .ok (J.obj (base ++ [("query_plan", J.arr plan)]))
              | .error e => .ok (J.obj (base ++ [("query_plan_error", J.str e)]))
            else .ok (J.obj base)
    | _ => .error "cypher_query value does not support strip"
  | _ => .error "params object has no attribute get"

/-! ## Concrete fixtures used to instantiate the theorems -/

/-- A driver whose session always succeeds with no rows. -/
def okDriver : QueryDriver :=
  { run := fun _ => .ok [] }

def connectedTool : Neo4jQueryToolState :=
  { driver := some okDriver }

/-- A minimal registered tool with one required parameter. -/
def echoTool : MCPTool :=
  { name := "echo_tool", description := "returns its arguments",
    parameters := [{ name := "x", type := "string", description := "a value", required := some true }],
    exec := fun p => .ok p }

def sampleServer : MCPServer :=
  MCPServer.register_tool { tools := [] } echoTool

/-! ## Helper lemmas -/

theorem startsWithL_self_append (n t : List Char) : startsWithL n (n ++ t) = true := by
  induction n with
  | nil => rfl
  | cons c cs ih => simp [startsWithL, ih]

theorem containsSub_self_append (n t : List Char) : containsSub n (n ++ t) = true := by
  cases n with
  | nil =>
    cases t with
    | nil => rfl
    | cons c rest => simp [containsSub, startsWithL]
  | cons c cs => simp [containsSub, startsWithL, startsWithL_self_append]

theorem containsSub_prepend (pre n t : List Char) (h : containsSub n t = true) :
    containsSub n (pre ++ t) = true := by
  induction pre with
  | nil => simpa
  | cons c cs ih => simp [containsSub, ih]

theorem containsSub_mid (pre n post : List Char) : containsSub n (pre ++ n ++ post) = true := by
  rw [List.append_assoc]
  exact containsSub_prepend pre n (n ++ post) (containsSub_self_append n post)

theorem wrapped_ne_limitMsg (m : String) :
    ("Query execution failed: " ++ m) ≠ "limit must be a positive integer between 1 and 1000" := by
  intro h
  have hd := congrArg String.data h
  rw [String.data_append] at hd
  have h1 : ("Query execution failed: ".data ++ m.data).head? = some 'Q' := rfl
  rw [hd] at h1
  exact absurd h1 (by decide)

theorem badLimit_iff (lim : J) :
    badLimit lim = true ↔
      (jTruthy lim = true ∧
        (isPyInt lim = false ∨ pyIntVal lim < 1 ∨ 1000 < pyIntVal lim)) := by
  unfold badLimit
  rw [Bool.and_eq_true, Bool.or_eq_true, Bool.or_eq_true, Bool.not_eq_true']
  simp only [decide_eq_true_eq]
  constructor
  · rintro ⟨h1, (h | h) | h⟩
    · exact ⟨h1, Or.inl h⟩
    · exact ⟨h1, Or.inr (Or.inl (by omega))⟩
    · exact ⟨h1, Or.inr (Or.inr (by omega))⟩
  · rintro ⟨h1, h | h | h⟩
    · exact ⟨h1, Or.inl (Or.inl h)⟩
    · exact ⟨h1, Or.inl (Or.inr (by omega))⟩
    · exact ⟨h1, Or.inr (by omega)⟩

/-! ## Claim theorems -/

/-- C1 (counterexample): the DETACH DELETE example query is rejected,
but the error message does not name DETACH DELETE: the loop hits the
earlier list entry DELETE first. -/
theorem C1_counterexample_message_names_DELETE :
    validate_query "MATCH (n) DETACH DELETE n" = .error (dangerMsg "DELETE") ∧
    containsSub "DETACH DELETE".data (dangerMsg "DELETE").data = false :=
  ⟨rfl, rfl⟩

/-- C1 (amended): a query whose normalised text contains a deny-listed
keyword is rejected with a caller-input error naming the first matching
keyword in the fixed list order (a keyword that does occur in the
normalised text); for the DETACH DELETE example the message names DELETE. -/
theorem C1_rejects_denylisted (q : String)
    (h : dangerous_keywords.any (fun k => containsSub k.data (normalizeQuery q)) = true) :
    ∃ k, k ∈ dangerous_keywords ∧ containsSub k.data (normalizeQuery q) = true ∧
      validate_query q = .error (dangerMsg k) ∧
      containsSub k.data (dangerMsg k).data = true := by
  rw [List.any_eq_true] at h
  obtain ⟨k, hk⟩ : ∃ k, dangerous_keywords.find?
      (fun k => containsSub k.data (normalizeQuery q)) = some k := by
    obtain ⟨x, hx, hpx⟩ := h
    exact Option.isSome_iff_exists.mp (List.find?_isSome.mpr ⟨x, hx, hpx⟩)
  have hpk : containsSub k.data (normalizeQuery q) = true := by
    simpa using List.find?_some hk
  refine ⟨k, List.mem_of_find?_eq_some hk, hpk, ?_, ?_⟩
  · simp only [validate_query, hk]
  · have hd : (dangerMsg k).data =
        "Query contains dangerous keyword: ".data ++ k.data ++
          ". Only read-only queries are allowed.".data := by
      simp [dangerMsg, String.data_append]
    rw [hd]
    exact containsSub_mid _ _ _

theorem C1_rejects_denylisted_witness :
    ∃ k, k ∈ dangerous_keywords ∧
      containsSub k.data (normalizeQuery "MATCH (n) DETACH DELETE n") = true ∧
      validate_query "MATCH (n) DETACH DELETE n" = .error (dangerMsg k) ∧
      containsSub k.data (dangerMsg k).data = true :=
  C1_rejects_denylisted "MATCH (n) DETACH DELETE n" (by rfl)

/-- C2: the gate accepts exactly when the normalised text contains no
deny-listed keyword and starts with an allowed read-only leading clause;
in particular the three listed read-only queries are accepted and the
CREATE query is rejected. -/
theorem C2_accepts_iff :
    (∀ q : String, validate_query q = .ok () ↔
      ((∀ k ∈ dangerous_keywords, containsSub k.data (normalizeQuery q) = false) ∧
       (∃ s ∈ allowed_starts, startsWithL s.data (normalizeQuery q) = true))) ∧
    validate_query "MATCH (n) RETURN n" = .ok () ∧
    validate_query "RETURN 1" = .ok () ∧
    validate_query "PROFILE MATCH (n) RETURN n" = .ok () ∧
    validate_query "CREATE (n)" = .error (dangerMsg "CREATE") := by
  refine ⟨?_, rfl, rfl, rfl, rfl⟩
  intro q
  simp only [validate_query]
  cases hf : dangerous_keywords.find? (fun k => containsSub k.data (normalizeQuery q)) with
  | some k =>
    have hpk : containsSub k.data (normalizeQuery q) = true := by
      simpa using List.find?_some hf
    have hmem : k ∈ dangerous_keywords := List.mem_of_find?_eq_some hf
    simp only [hf]
    constructor
    · intro h; exact Except.noConfusion h
    · rintro ⟨hall, -⟩
      rw [hall k hmem] at hpk
      cases hpk
  | none =>
    simp only [hf]
    rw [List.find?_eq_none] at hf
    constructor
    · intro h
      split at h
      · rename_i hcond
        rw [List.any_eq_true] at hcond
        exact ⟨fun k hkmem => by simpa using hf k hkmem, hcond⟩
      · cases h
    · rintro ⟨-, hex⟩
      have hcond : allowed_starts.any (fun s => startsWithL s.data (normalizeQuery q)) = true :=
        List.any_eq_true.mpr hex
      simp [hcond]

/-- C5: every serialised response dictionary carries exactly one of the
result and error keys, for every combination of stored values. -/
theorem C5_result_error_exclusive (r : JSONRPCResponse) :
    (hasKey (JSONRPCResponse.to_dict r) "result" && hasKey (JSONRPCResponse.to_dict r) "error") = false ∧
    (hasKey (JSONRPCResponse.to_dict r) "result" || hasKey (JSONRPCResponse.to_dict r) "error") = true := by
  obtain ⟨j, res, err, i⟩ := r
  cases err with
  | none => cases i <;> exact ⟨rfl, rfl⟩
  | some kvs => cases kvs <;> cases i <;> exact ⟨rfl, rfl⟩

/-- C10: the parse-error and invalid-request paths build their response with
no id key at all, even when the inbound mapping carried an id. -/
theorem C10_structural_errors_drop_id (srv : MCPServer) :
    (∀ e : String, ∃ body, srv.handle_request (.text (.error e)) = some body ∧
        hasKey body "id" = false) ∧
    (∀ d : ReqDict, d.method = none → ∃ body, srv.handle_request (.dict d) = some body ∧
        hasKey body "id" = false) := by
  constructor
  · intro e
    refine ⟨_, rfl, ?_⟩
    cases he : e.isEmpty <;>
      simp [create_error_response, he, JSONRPCResponse.to_dict, hasKey, lookupKV, List.find?]
  · intro d hm
    refine ⟨create_error_response (-32600) "Invalid Request" (some ("Missing field: " ++ "method")),
      ?_, ?_⟩
    · simp [MCPServer.handle_request, JSONRPCRequest.from_dict, hm]
    · rfl

/-- C3 (counterexample): an inbound mapping with neither method nor id, and
unparseable raw text (where no id can exist), both produce a response — the
structural-error paths answer even for id-less requests, against the claim
that every id-less request yields absent. -/
theorem C3_counterexample_structural_paths_respond :
    (MCPServer.handle_request { tools := [] } (.dict {})).isSome = true ∧
    (MCPServer.handle_request { tools := [] } (.text (.error "Expecting value"))).isSome = true :=
  ⟨rfl, rfl⟩

/-- C3 (amended): once the inbound mapping yields a request object (method
present), an absent id suppresses the response regardless of the dispatch
outcome; the parse-error and invalid-request paths, however, do return an
error response even when the id is absent. -/
theorem C3_notifications_suppressed (srv : MCPServer) (d : ReqDict)
    (hm : d.method.isSome = true) (hid : d.id = none) :
    srv.handle_request (.dict d) = none ∧ srv.handle_request (.text (.ok d)) = none := by
  obtain ⟨m, hme⟩ := Option.isSome_iff_exists.mp hm
  constructor <;>
    simp [MCPServer.handle_request, JSONRPCRequest.from_dict, hme,
      JSONRPCRequest.is_notification, hid]

theorem C3_notifications_suppressed_witness :
    MCPServer.handle_request { tools := [] } (.dict { method := some "initialize" }) = none ∧
    MCPServer.handle_request { tools := [] } (.text (.ok { method := some "initialize" })) = none :=
  C3_notifications_suppressed { tools := [] } { method := some "initialize" } rfl rfl

/-- C4: a non-notification request with an unknown method gets an error
response with code -32601, a message containing the method name, and the
request id echoed. -/
theorem C4_unknown_method (srv : MCPServer) (d : ReqDict) (m : String) (i : J)
    (hm : d.method = some m) (hunk : m ∉ method_names) (hid : d.id = some i) :
    ∃ body err msg,
      srv.handle_request (.dict d) = some body ∧
      lookupKV body "error" = some (J.obj err) ∧
      lookupKV err "code" = some (J.int (-32601)) ∧
      lookupKV err "message" = some (J.str msg) ∧
      containsSub m.data msg.data = true ∧
      lookupKV body "id" = some i := by
  refine ⟨[("jsonrpc", J.str "2.0"),
      ("error", J.obj [("code", J.int (-32601)), ("message", J.str ("Method not found: " ++ m))]),
      ("id", i)],
    [("code", J.int (-32601)), ("message", J.str ("Method not found: " ++ m))],
    "Method not found: " ++ m, ?_, rfl, rfl, rfl, ?_, rfl⟩
  · simp [MCPServer.handle_request, JSONRPCRequest.from_dict, hm,
      JSONRPCRequest.is_notification, hid, MCPServer.dispatch_method, hunk,
      JSONRPCResponse.to_dict]
  · rw [String.data_append]
    exact containsSub_prepend _ _ _ (by simpa using containsSub_self_append m.data [])

theorem C4_unknown_method_witness :
    ∃ body err msg,
      MCPServer.handle_request { tools := [] }
        (.dict { method := some "foo/bar", id := some (J.int 1) }) = some body ∧
      lookupKV body "error" = some (J.obj err) ∧
      lookupKV err "code" = some (J.int (-32601)) ∧
      lookupKV err "message" = some (J.str msg) ∧
      containsSub "foo/bar".data msg.data = true ∧
      lookupKV body "id" = some (J.int 1) :=
  C4_unknown_method { tools := [] } { method := some "foo/bar", id := some (J.int 1) }
    "foo/bar" (J.int 1) rfl (by decide) rfl

/-- C6: a tools/call request whose params carry no name, or a name not
registered, never reaches any execute operation: the dispatcher answers with
an internal-error envelope (code -32603) whose data states the missing
parameter or the unknown tool. -/
theorem C6_call_tool_fails_closed (srv : MCPServer) (d : ReqDict) (kvs : List (String × J)) (i : J)
    (hm : d.method = some "tools/call") (hid : d.id = some i)
    (hp : d.params = some (J.obj kvs))
    (hname : lookupKV kvs "name" = none ∨
      ∃ s, lookupKV kvs "name" = some (J.str s) ∧ lookupTool srv.tools s = none) :
    ∃ body err dat,
      srv.handle_request (.dict d) = some body ∧
      lookupKV body "error" = some (J.obj err) ∧
      lookupKV err "code" = some (J.int (-32603)) ∧
      lookupKV err "data" = some (J.str dat) ∧
      ((lookupKV kvs "name" = none ∧ dat = "Missing required parameter: name") ∨
       (∃ s, lookupKV kvs "name" = some (J.str s) ∧ dat = "Tool not found: " ++ s)) := by
  have hpe : paramsOrEmpty d.params = J.obj kvs := by
    rw [hp]; cases kvs <;> simp [paramsOrEmpty, jTruthy]
  have hcall : ∃ dat, srv.handle_call_tool (J.obj kvs) = .error dat ∧
      ((lookupKV kvs "name" = none ∧ dat = "Missing required parameter: name") ∨
       (∃ s, lookupKV kvs "name" = some (J.str s) ∧ dat = "Tool not found: " ++ s)) := by
    rcases hname with h | ⟨s, hs, hnone⟩
    · exact ⟨_, by simp [MCPServer.handle_call_tool, h], Or.inl ⟨h, rfl⟩⟩
    · exact ⟨_, by simp [MCPServer.handle_call_tool, hs, hnone], Or.inr ⟨s, hs, rfl⟩⟩
  obtain ⟨dat, hc, hcase⟩ := hcall
  refine ⟨[("jsonrpc", J.str "2.0"),
      ("error", J.obj [("code", J.int (-32603)),
        ("message", J.str ("Error executing " ++ "tools/call")), ("data", J.str dat)]),
      ("id", i)],
    [("code", J.int (-32603)), ("message", J.str ("Error executing " ++ "tools/call")),
      ("data", J.str dat)],
    dat, ?_, rfl, rfl, rfl, hcase⟩
  simp [MCPServer.handle_request, JSONRPCRequest.from_dict, hm,
    JSONRPCRequest.is_notification, hid, MCPServer.dispatch_method, method_names,
    MCPServer.runHandler, hpe, hc, JSONRPCResponse.to_dict]

theorem C6_call_tool_fails_closed_witness :
    ∃ body err dat,
      MCPServer.handle_request sampleServer
        (.dict { method := some "tools/call",
                 params := some (J.obj [("name", J.str "nonexistent_tool")]),
                 id := some (J.int 2) }) = some body ∧
      lookupKV body "error" = some (J.obj err) ∧
      lookupKV err "code" = some (J.int (-32603)) ∧
      lookupKV err "data" = some (J.str dat) ∧
      ((lookupKV [("name", J.str "nonexistent_tool")] "name" = none ∧
          dat = "Missing required parameter: name") ∨
       (∃ s, lookupKV [("name", J.str "nonexistent_tool")] "name" = some (J.str s) ∧
          dat = "Tool not found: " ++ s)) :=
  C6_call_tool_fails_closed sampleServer
    { method := some "tools/call", params := some (J.obj [("name", J.str "nonexistent_tool")]),
      id := some (J.int 2) }
    [("name", J.str "nonexistent_tool")] (J.int 2) rfl rfl rfl
    (Or.inr ⟨"nonexistent_tool", rfl, rfl⟩)

/-- C9: tools/list yields one descriptor per registered tool, and a name
appears in the required list of a descriptor exactly when some parameter of the
tool carries that name and is marked required. -/
theorem C9_list_tools_and_required (srv : MCPServer) :
    (MCPServer.list_tools srv).length = srv.tools.length ∧
    (∀ t : MCPTool, ∀ pname : String,
      J.str pname ∈ schemaRequired t ↔
        ∃ p ∈ t.parameters, p.name = pname ∧ p.required.getD false = true) := by
  refine ⟨by simp [MCPServer.list_tools], ?_⟩
  intro t pname
  have hs : schemaRequired t = (requiredNames t.parameters).map J.str := rfl
  rw [hs]
  simp only [requiredNames, List.map_map, List.mem_map, List.mem_filter, Function.comp_apply,
    J.str.injEq]
  constructor
  · rintro ⟨p, ⟨hp, hr⟩, he⟩
    exact ⟨p, hp, he, hr⟩
  · rintro ⟨p, hp, he, hr⟩
    exact ⟨p, ⟨hp, hr⟩, he⟩

/-- C7 (counterexample): a supplied limit of 0 is not rejected — the guard
tests truthiness first, 0 is falsy, and the query runs uncapped. -/
theorem C7_counterexample_limit_zero_accepted :
    Neo4jQueryToolState.execute connectedTool
        (J.obj [("cypher_query", J.str "MATCH (n) RETURN n"), ("limit", J.int 0)]) =
      .ok (J.obj (queryResponseBase "MATCH (n) RETURN n" [])) :=
  rfl

/-- C7 (amended): with a nonempty query string, execute raises the limit
caller error exactly when the effective limit value (supplied, else the
default 100) is truthy and is not an integer between 1 and 1000; falsy
values such as a supplied 0 skip the check entirely, and the omitted-limit
default 100 passes it. -/
theorem C7_limit_guard_iff (t : Neo4jQueryToolState) (kvs : List (String × J)) (s : String)
    (hq : lookupKV kvs "cypher_query" = some (J.str s))
    (hne : (pyStrip s).isEmpty = false) :
    (Neo4jQueryToolState.execute t (J.obj kvs) =
        .error "limit must be a positive integer between 1 and 1000") ↔
    (jTruthy ((lookupKV kvs "limit").getD (J.int 100)) = true ∧
      (isPyInt ((lookupKV kvs "limit").getD (J.int 100)) = false ∨
       pyIntVal ((lookupKV kvs "limit").getD (J.int 100)) < 1 ∨
       1000 < pyIntVal ((lookupKV kvs "limit").getD (J.int 100)))) := by
  rw [← badLimit_iff]
  simp only [Neo4jQueryToolState.execute, hq, Option.getD_some, hne, Bool.false_eq_true,
    if_false]
  cases hb : badLimit ((lookupKV kvs "limit").getD (J.int 100)) with
  | true =>
    simp [hb]
  | false =>
    simp only [hb, Bool.false_eq_true, if_false]
    constructor
    · intro hrest
      exfalso
      revert hrest
      cases hv : validate_query (pyStrip s) with
      | error m =>
        simp only [hv]
        intro hrest
        exact wrapped_ne_limitMsg m (Except.error.injEq _ _ ▸ hrest |>.symm ▸ rfl)
      | ok u =>
        simp only [hv]
        cases he : Neo4jQueryToolState.execute_query t (pyStrip s)
            ((lookupKV kvs "limit").getD (J.int 100)) with
        | error m =>
          simp only [he]
          intro hrest
          exact wrapped_ne_limitMsg m (Except.error.injEq _ _ ▸ hrest |>.symm ▸ rfl)
        | ok rows =>
          simp only [he]
          cases jTruthy ((lookupKV kvs "include_query_plan").getD (J.bool false)) with
          | false => simp
          | true =>
            simp only [if_true]
            cases hp2 : Neo4jQueryToolState.execute_query t ("EXPLAIN " ++ pyStrip s) .null <;>
              simp [hp2]
    · intro hrhs
      exact absurd hrhs (by simp [hb])

theorem C7_limit_guard_iff_witness :
    (Neo4jQueryToolState.execute connectedTool
        (J.obj [("cypher_query", J.str "RETURN 1"), ("limit", J.str "ten")]) =
        .error "limit must be a positive integer between 1 and 1000") ↔
    (jTruthy ((lookupKV [("cypher_query", J.str "RETURN 1"), ("limit", J.str "ten")]
        "limit").getD (J.int 100)) = true ∧
      (isPyInt ((lookupKV [("cypher_query", J.str "RETURN 1"), ("limit", J.str "ten")]
          "limit").getD (J.int 100)) = false ∨
       pyIntVal ((lookupKV [("cypher_query", J.str "RETURN 1"), ("limit", J.str "ten")]
          "limit").getD (J.int 100)) < 1 ∨
       1000 < pyIntVal ((lookupKV [("cypher_query", J.str "RETURN 1"), ("limit", J.str "ten")]
          "limit").getD (J.int 100)))) :=
  C7_limit_guard_iff connectedTool
    [("cypher_query", J.str "RETURN 1"), ("limit", J.str "ten")] "RETURN 1" rfl rfl

/-- C8 (counterexample): with a supplied limit of 0 and a query containing
no LIMIT substring, the executed text is not extended with a cap clause —
the falsy limit leaves the query unchanged. -/
theorem C8_counterexample_limit_zero_not_appended :
    appliedQuery "RETURN 1" (J.int 0) = "RETURN 1" ∧
    containsSub "LIMIT".data ("RETURN 1".data.map Char.toUpper) = false :=
  ⟨rfl, rfl⟩

/-- C8 (amended): for a supplied integer limit, the executed text gains a
trailing cap clause (after stripping trailing semicolons) exactly when the
limit is nonzero and the uppercased query lacks a LIMIT substring; a query
already containing LIMIT anywhere, or a zero limit, runs unchanged. -/
theorem C8_applied_query (q : String) (n : Int) :
    (containsSub "LIMIT".data (q.data.map Char.toUpper) = true →
      appliedQuery q (J.int n) = q) ∧
    (n ≠ 0 → containsSub "LIMIT".data (q.data.map Char.toUpper) = false →
      appliedQuery q (J.int n) = rstripSemi q ++ " LIMIT " ++ toString n) ∧
    (n = 0 → appliedQuery q (J.int n) = q) := by
  refine ⟨?_, ?_, ?_⟩
  · intro hc
    simp [appliedQuery, hc]
  · intro hn hc
    simp [appliedQuery, hc, jTruthy, pyStr, bne_iff_ne, hn]
  · intro hn
    subst hn
    simp [appliedQuery, jTruthy]

theorem C8_applied_query_witness :
    appliedQuery "MATCH (n) RETURN n;" (J.int 50) =
      rstripSemi "MATCH (n) RETURN n;" ++ " LIMIT " ++ toString (50 : Int) :=
  (C8_applied_query "MATCH (n) RETURN n;" 50).2.1 (by decide) rfl

theorem C10_structural_errors_drop_id_witness :
    ∃ body, MCPServer.handle_request { tools := [] }
        (.dict { id := some (J.int 7) }) = some body ∧ hasKey body "id" = false :=
  (C10_structural_errors_drop_id { tools := [] }).2 { id := some (J.int 7) } rfl

end TextToSql
